import Mathlib

/-!
Shallow embedding of the waveform resampling and adaptive caching engine of
the `WaveformVis` layer (source: `WaveformVis` class, methods
`getSamplesPerPixel`, `initWorker`, `downSample`, `resamplerResponse`,
`setDownSample`, `xZoom`, `draw`).

JavaScript numbers are modelled as rationals (ℚ); the sample buffer as a
list of rationals; the mutable instance fields of the `WaveformVis` object
as an explicit state record threaded through the methods.  The `throw` in
`resamplerResponse` is modelled with `Except`.
-/

namespace WaveformVis

/-- One (min, max) envelope point, one per pixel column. -/
structure Pair where
  min : ℚ
  max : ℚ
deriving Repr, DecidableEq

/-- Ordered sequence of (min, max) pairs, one per pixel column. -/
abbrev DownsampledView := List Pair

/-- Modelled from the spec: `lib/min-max.js` is not under `src/` (only its
caller `downSample` and the worker-initialisation that serialises it are).
Per spec §4.2, for a time instant `t` the extractor converts it to a sample
index `i = round(t * sampleRate)` and scans the half-open index range
`[i, i + windowSize)`; this definition collects the buffer samples whose
index falls in that range. -/
def windowSamples (buffer : List ℚ) (t sampleRate windowSize : ℚ) : List ℚ :=
  let i : ℤ := round (t * sampleRate)
  ((List.range buffer.length).filter
    (fun (j : ℕ) => decide (i ≤ (j : ℤ)) && decide ((j : ℚ) < (i : ℚ) + windowSize))).filterMap
    (fun (j : ℕ) => buffer.get? j)

/-- Modelled from the spec (§4.2): the (min, max) pair of the samples in the
window anchored at time `t`; if the window holds no valid sample, the pair
`(defaultValue, defaultValue)` is emitted instead. -/
def minMaxAt (buffer : List ℚ) (t sampleRate windowSize defaultValue : ℚ) : Pair :=
  match windowSamples buffer t sampleRate windowSize with
  | [] => ⟨defaultValue, defaultValue⟩
  | v :: vs => ⟨vs.foldl min v, vs.foldl max v⟩

/-- Modelled from the spec: the pure extractor of `lib/min-max.js`
(`extract(buffer, extractAtTimes, sampleRate, windowSize, defaultValue) ->
DownsampledView`, spec §4.2), one output pair per requested time instant. -/
def minMax (buffer : List ℚ) (extractAtTimes : List ℚ)
    (sampleRate windowSize defaultValue : ℚ) : DownsampledView :=
  extractAtTimes.map (fun t => minMaxAt buffer t sampleRate windowSize defaultValue)

/-- Pixel-space drag delta of an interaction event (`e.delta` in the source,
of which `xZoom` reads `e.delta.x`). -/
structure EventDelta where
  x : ℚ
  y : ℚ
deriving Repr, DecidableEq

/-- An interaction event reaching `xZoom`: a zoom factor and a drag delta. -/
structure ZoomEvent where
  factor : ℚ
  delta : EventDelta
deriving Repr, DecidableEq

/-- A message posted back by the resampler worker, as read by
`resamplerResponse` (`message.data` in the source: `cmd`, `time`, and the
`downSampledView` payload). -/
structure Response where
  cmd : String
  time : ℤ
  downSampledView : DownsampledView
deriving Repr, DecidableEq

/-- The mutable instance fields of a `WaveformVis` object that the core
methods read and write, together with the collaborator values they consult
(`this.base.xScale`, `this.base.width()`, `this.yScale`, `this.data()`,
the `params` set in the constructor, and the wall clock used for
`new Date().getTime()`).  `paramYDomain` is the layer's own `yDomain`
parameter (default `[-1, 1]` in the constructor); `yScaleDomain` is what
`this.yScale.domain()` returns — the source comment `// not this` flags
that the two need not coincide. -/
structure VisState where
  currentZoomFactor : ℚ
  currentDragDeltaX : ℚ
  triggerUpdateZoomDelta : ℚ
  triggerUpdateDragDelta : ℚ
  useWorker : Bool
  baseXScaleDomain : ℚ × ℚ
  baseXScaleRange : ℚ × ℚ
  baseWidth : ℚ
  sampleRate : ℚ
  yScaleDomain : ℚ × ℚ
  paramYDomain : ℚ × ℚ
  buffer : List ℚ
  cache : Option DownsampledView
  xxScaleDomain : ℚ × ℚ
  xxScaleRange : ℚ × ℚ
  currentWorkerCallTime : ℤ
  isProcessing : Bool
  now : ℤ
deriving Repr, DecidableEq

/-- Width of the currently visible time range
(`timelineDomain[1] - timelineDomain[0]` in `getSamplesPerPixel`). -/
def visibleDuration (s : VisState) : ℚ :=
  s.baseXScaleDomain.2 - s.baseXScaleDomain.1

/-- Embeds `WaveformVis.getSamplesPerPixel`: samples per timeline pixel,
`(timelineDuration * sampleRate) / timelineWidth`. -/
def getSamplesPerPixel (s : VisState) : ℚ :=
  let timelineDuration := s.baseXScaleDomain.2 - s.baseXScaleDomain.1
  let timelineWidth := s.baseWidth
  (timelineDuration * s.sampleRate) / timelineWidth

/-- Inverse of the linear time→pixel scale `this.base.xScale`
(d3 `scale.linear().invert`): maps a pixel position back to a time. -/
def xScaleInvert (s : VisState) (p : ℚ) : ℚ :=
  s.baseXScaleDomain.1 +
    (p - s.baseXScaleRange.1) *
      (s.baseXScaleDomain.2 - s.baseXScaleDomain.1) /
      (s.baseXScaleRange.2 - s.baseXScaleRange.1)

/-- The per-recompute request data assembled at the top of
`WaveformVis.downSample` before the backend branch: the extraction times
(one per pixel column of `base.xScale.range()`), the sample rate, the
window size, and the default value taken as the midpoint of
`this.yScale.domain()` (the line carrying the `// not this` comment). -/
structure ExtractionPlan where
  extractAtTimes : List ℚ
  sampleRate : ℚ
  windowSize : ℚ
  defaultValue : ℚ
deriving Repr, DecidableEq

/-- Embeds lines 110–127 of `WaveformVis.downSample`: the loop
`for (let pixel = 0; pixel < width; pixel++)` pushes
`base.xScale.invert(pixel)` for each integer pixel, so it runs
`⌈width⌉` times (clamped at zero); the default value is
`(yDomain[0] + yDomain[1]) / 2` of `this.yScale.domain()`. -/
def downSamplePlan (s : VisState) : ExtractionPlan :=
  let width := s.baseXScaleRange.2 - s.baseXScaleRange.1
  let extractAtTimes :=
    (List.range (Int.toNat ⌈width⌉)).map (fun p => xScaleInvert s (p : ℚ))
  let yDomain := s.yScaleDomain
  let defaultValue := (yDomain.1 + yDomain.2) / 2
  ⟨extractAtTimes, s.sampleRate, getSamplesPerPixel s, defaultValue⟩

/-- Embeds `WaveformVis.setDownSample`: clear the processing flag, rebuild
`xxScale` with domain `[0, data.length]` and range the current
`base.xScale.domain()`, and replace the cached view wholesale (the final
`this.draw(data)` call renders the freshly stored view and touches no
state). -/
def setDownSample (s : VisState) (data : DownsampledView) : VisState :=
  { s with
    isProcessing := false
    xxScaleDomain := (0, (data.length : ℚ))
    xxScaleRange := s.baseXScaleDomain
    cache := some data }

/-- Observable outcome of one call into the drawing/recompute pipeline:
either a view is handed to the rendering strategy (`this._draw(data)`), or
a recompute request is posted to the worker, or the inline backend computes
and stores a fresh view. -/
inductive Effect where
  | rendered (d : DownsampledView)
  | posted (time : ℤ) (plan : ExtractionPlan)
  | computedInline (d : DownsampledView)
deriving Repr, DecidableEq

/-- True exactly when the effect is a recomputation (a `downSample` run),
as opposed to rendering an existing view. -/
def Effect.isRecompute : Effect → Bool
  | .rendered _ => false
  | .posted _ _ => true
  | .computedInline _ => true

/-- Embeds `WaveformVis.downSample`: assemble the plan, then either post a
`downSample` message (with the current wall-clock `time`) to the worker, or
run `minMax` inline and pass the result to `setDownSample`. -/
def downSample (s : VisState) : VisState × Effect :=
  let plan := downSamplePlan s
  if s.useWorker then
    (s, .posted s.now plan)
  else
    let downSampledView :=
      minMax s.buffer plan.extractAtTimes plan.sampleRate plan.windowSize plan.defaultValue
    (setDownSample s downSampledView, .computedInline downSampledView)

/-- Embeds `WaveformVis.draw`: with absent data it falls back to
`this.downSample()`; with a present view it renders it. -/
def draw (s : VisState) (data : Option DownsampledView) : VisState × Effect :=
  match data with
  | none => downSample s
  | some d => (s, .rendered d)

/-- Embeds `WaveformVis.xZoom`: when both the zoom delta and the drag delta
are below their thresholds, draw the cached data and return; otherwise
record the event's factor and drag delta and recompute via `downSample`. -/
def xZoom (s : VisState) (e : ZoomEvent) : VisState × Effect :=
  let deltaZoom := |s.currentZoomFactor - e.factor|
  let deltaDrag := |s.currentDragDeltaX - e.delta.x|
  if deltaZoom < s.triggerUpdateZoomDelta ∧ deltaDrag < s.triggerUpdateDragDelta then
    draw s s.cache
  else
    downSample
      { s with currentZoomFactor := e.factor, currentDragDeltaX := e.delta.x }

/-- Embeds `WaveformVis.resamplerResponse` as the source executes it: the
staleness check against `__currentWorkerCallTime` is commented out in the
source (marked `THIS DO NOT WORK`), so the handler switches on `data.cmd`
alone — a `downSample` response is applied unconditionally via
`setDownSample`, any other command throws (`data.msg` is undefined on
responses, hence the literal message). -/
def resamplerResponse (s : VisState) (message : Response) : Except String VisState :=
  if message.cmd = "downSample" then
    .ok (setDownSample s message.downSampledView)
  else
    .error "Resampler unkown command: undefined"

/-- Feeds a sequence of worker responses to `resamplerResponse` in arrival
order, threading the state; stops at the first thrown error. -/
def processResponses (s : VisState) : List Response → Except String VisState
  | [] => .ok s
  | r :: rest =>
    match resamplerResponse s r with
    | .ok s' => processResponses s' rest
    | .error e => .error e

/-- The state of the resampler worker after initialisation: the transferred
sample buffer and the extractor logic it was handed. -/
structure WorkerState where
  buffer : List ℚ
  extractor : List ℚ → List ℚ → ℚ → ℚ → ℚ → DownsampledView

/-- Embeds the initialisation message of `WaveformVis.initWorker`: the
worker receives the sample buffer (`this.data()`) and the serialised
`minMax` logic itself (`minMax: minMax.toString()`), so its extractor is
the very same `minMax` the inline path calls. -/
def initWorker (buffer : List ℚ) : WorkerState :=
  ⟨buffer, minMax⟩

/-- Modelled from the spec: `lib/resampler-worker.js` is not under `src/`
(only `initWorker`, which creates it, is).  Per spec §4.3/§6 the worker
runs the identical extractor logic it was initialised with on its stored
buffer and returns the resulting view. -/
def workerHandleDownSample (w : WorkerState) (extractAtTimes : List ℚ)
    (sampleRate windowSize defaultValue : ℚ) : DownsampledView :=
  w.extractor w.buffer extractAtTimes sampleRate windowSize defaultValue

/-- The inline backend of `WaveformVis.downSample` (the `else` branch): a
direct `minMax` call on the caller's thread. -/
def inlineDownSample (buffer : List ℚ) (extractAtTimes : List ℚ)
    (sampleRate windowSize defaultValue : ℚ) : DownsampledView :=
  minMax buffer extractAtTimes sampleRate windowSize defaultValue

/-- A concrete `WaveformVis` instance state: the constructor defaults
(`triggerUpdateZoomDelta 0.05`, `triggerUpdateDragDelta 4`,
`currentZoomFactor 1`, `currentDragDeltaX 0`, `yDomain [-1, 1]`), a
two-pixel-wide timeline showing the time range `[0, 10]`, and a small
sample buffer. -/
def baseState : VisState :=
  { currentZoomFactor := 1
    currentDragDeltaX := 0
    triggerUpdateZoomDelta := 1/20
    triggerUpdateDragDelta := 4
    useWorker := true
    baseXScaleDomain := (0, 10)
    baseXScaleRange := (0, 2)
    baseWidth := 2
    sampleRate := 2
    yScaleDomain := (-1, 1)
    paramYDomain := (-1, 1)
    buffer := [1, 2, 3, 4]
    cache := none
    xxScaleDomain := (0, 1)
    xxScaleRange := (0, 1)
    currentWorkerCallTime := 0
    isProcessing := false
    now := 0 }

/-- A distinguishable one-column view tagged by `k`, used to tell which
worker response ended up applied. -/
def viewOf (k : ℤ) : DownsampledView := [⟨(k : ℚ), (k : ℚ)⟩]

/-- A well-formed `downSample` worker response whose request identifier
(`time`) is `k` and whose payload is `viewOf k`. -/
def respOf (k : ℤ) : Response := ⟨"downSample", k, viewOf k⟩

/-- A two-point cached view used by the caching fixtures. -/
def cachedView : DownsampledView := [⟨0, 0⟩, ⟨1, 1⟩]

/-- State right after `setDownSample cachedView` ran against the visible
range `[0, 10]`: the cache holds `cachedView` and `xxScale` maps
`[0, cachedView.length]` onto `[0, 10]`. -/
def storedState : VisState := setDownSample baseState cachedView

/-- The stored state after the visible time range moved to `[5, 15]`
(panning without a new store). -/
def pannedState : VisState := { storedState with baseXScaleDomain := (5, 15) }

/-- An interaction event whose zoom and drag deltas against
`pannedState` are both zero: well below the thresholds, hence a reuse
decision. -/
def reuseEvent : ZoomEvent := ⟨1, ⟨0, 0⟩⟩

/-- An interaction event with `deltaZoom = 0.02` and `deltaDrag = 1`
against `baseState` (reuse per the thresholds `{zoom: 0.05, drag: 4}`). -/
def smallDeltaEvent : ZoomEvent := ⟨1 + 1/50, ⟨1, 0⟩⟩

/-- An interaction event with `deltaZoom = 0.2` against `baseState`
(recompute per the threshold `zoom: 0.05`). -/
def bigZoomEvent : ZoomEvent := ⟨1 + 1/5, ⟨0, 0⟩⟩

/-- The base state with a cached view present. -/
def cachedState : VisState := { baseState with cache := some cachedView }

/-- The base state with `this.yScale.domain()` returning `[0, 100]` while
the layer's own `yDomain` parameter stays at its `[-1, 1]` default. -/
def mismatchedState : VisState := { baseState with yScaleDomain := (0, 100) }

/-- Helper: under a reuse decision (both deltas strictly below their
thresholds) with a cached view present, `xZoom` renders the cached view
and leaves the whole state unchanged. -/
theorem xZoom_reuse_eq (s : VisState) (e : ZoomEvent) (v : DownsampledView)
    (hc : s.cache = some v)
    (hz : |s.currentZoomFactor - e.factor| < s.triggerUpdateZoomDelta)
    (hd : |s.currentDragDeltaX - e.delta.x| < s.triggerUpdateDragDelta) :
    xZoom s e = (s, Effect.rendered v) := by
  simp only [xZoom]
  rw [if_pos ⟨hz, hd⟩, hc, draw]

/-- Helper: `downSample` always produces a recomputation effect,
whichever backend is configured. -/
theorem downSample_isRecompute (s : VisState) :
    ((downSample s).2).isRecompute = true := by
  cases hw : s.useWorker <;> simp [downSample, hw, Effect.isRecompute]

/-- C3: for every fixed input tuple, the Offloaded backend (the worker as
initialised by `initWorker`, which hands it the serialised `minMax` logic
and the buffer) produces exactly the view the Inline backend (the direct
`minMax` call of `downSample`) produces. -/
theorem backend_equivalence :
    ∀ (buffer extractAtTimes : List ℚ) (sampleRate windowSize defaultValue : ℚ),
      workerHandleDownSample (initWorker buffer) extractAtTimes sampleRate
          windowSize defaultValue
        = inlineDownSample buffer extractAtTimes sampleRate windowSize defaultValue :=
  fun _ _ _ _ _ => rfl

/-- C4: the extractor's output has exactly `extractAtTimes.length` entries
(also for the empty sequence), and a column whose sample window contains no
valid sample yields the pair `(defaultValue, defaultValue)` instead of
failing. -/
theorem minMax_completeness :
    (∀ (buffer extractAtTimes : List ℚ) (sampleRate windowSize defaultValue : ℚ),
      (minMax buffer extractAtTimes sampleRate windowSize defaultValue).length
        = extractAtTimes.length) ∧
    (∀ (buffer : List ℚ) (t sampleRate windowSize defaultValue : ℚ),
      windowSamples buffer t sampleRate windowSize = [] →
      minMaxAt buffer t sampleRate windowSize defaultValue
        = ⟨defaultValue, defaultValue⟩) := by
  constructor
  · intro buffer ts sr ws dv
    simp [minMax]
  · intro buffer t sr ws dv h
    simp [minMaxAt, h]

/-- Witness for C4 at a concrete input: a 2-sample buffer with the window
`[5, 8)` entirely out of bounds yields the default pair. -/
theorem minMax_completeness_witness :
    windowSamples [1, 2] 5 1 3 = [] ∧
    minMaxAt [1, 2] 5 1 3 (1/2) = ⟨1/2, 1/2⟩ := by
  have hE : windowSamples [1, 2] 5 1 3 = [] := by
    norm_num [windowSamples, List.range_succ]
  exact ⟨hE, minMax_completeness.2 [1, 2] 5 1 3 (1/2) hE⟩

/-- C6: `setDownSample` replaces the cached view wholesale (the cache
afterwards is exactly the new view, whatever was cached before) and
rebuilds `xxScale` to map the index range `[0, view.length]` onto the
current visible time range `base.xScale.domain()`. -/
theorem setDownSample_replaces_and_rescales :
    ∀ (s : VisState) (data : DownsampledView),
      (setDownSample s data).cache = some data ∧
      (setDownSample s data).xxScaleDomain = (0, (data.length : ℚ)) ∧
      (setDownSample s data).xxScaleRange = s.baseXScaleDomain :=
  fun _ _ => ⟨rfl, rfl, rfl⟩

/-- C7: the computed window size (samples per pixel) equals
`(visibleDuration * sampleRate) / pixelWidth`; equivalently, for a nonzero
pixel width, window size times pixel width recovers
`visibleDuration * sampleRate`. -/
theorem getSamplesPerPixel_formula :
    (∀ s : VisState,
      getSamplesPerPixel s = visibleDuration s * s.sampleRate / s.baseWidth) ∧
    (∀ s : VisState, s.baseWidth ≠ 0 →
      getSamplesPerPixel s * s.baseWidth = visibleDuration s * s.sampleRate) := by
  constructor
  · intro s
    rfl
  · intro s h
    simp only [getSamplesPerPixel, visibleDuration]
    exact div_mul_cancel₀ _ h

/-- Witness for C7 at the concrete base state (visible duration 10, sample
rate 2, pixel width 2). -/
theorem getSamplesPerPixel_formula_witness :
    getSamplesPerPixel baseState
        = visibleDuration baseState * baseState.sampleRate / baseState.baseWidth ∧
    baseState.baseWidth ≠ 0 ∧
    getSamplesPerPixel baseState * baseState.baseWidth
        = visibleDuration baseState * baseState.sampleRate := by
  have hw : baseState.baseWidth ≠ 0 := by norm_num [baseState]
  exact ⟨getSamplesPerPixel_formula.1 baseState, hw,
    getSamplesPerPixel_formula.2 baseState hw⟩

/-- C10: `draw` with absent data does not render — it falls back to a full
`downSample` recomputation; with present data it renders it; and a render
effect can only arise from a present view equal to the rendered one. -/
theorem draw_absent_data_recomputes :
    (∀ s : VisState, draw s none = downSample s) ∧
    (∀ (s : VisState) (d : DownsampledView), draw s (some d) = (s, Effect.rendered d)) ∧
    (∀ (s s' : VisState) (o : Option DownsampledView) (d : DownsampledView),
      draw s o = (s', Effect.rendered d) → o = some d) := by
  refine ⟨fun s => rfl, fun s d => rfl, ?_⟩
  intro s s' o d h
  cases o with
  | none =>
    cases hw : s.useWorker <;> simp [draw, downSample, hw] at h
  | some d' =>
    simp [draw] at h
    rw [h.2]

/-- Witness for C10's implication at a concrete input: rendering the cached
fixture view forces the input to have been that present view. -/
theorem draw_absent_data_recomputes_witness :
    draw baseState (some cachedView) = (baseState, Effect.rendered cachedView) ∧
    some cachedView = some cachedView :=
  ⟨draw_absent_data_recomputes.2.1 baseState cachedView,
    draw_absent_data_recomputes.2.2 baseState baseState (some cachedView) cachedView
      (draw_absent_data_recomputes.2.1 baseState cachedView)⟩

/-- C2: with a cached view present, an interaction event whose zoom delta
and drag delta are both strictly below their thresholds makes `xZoom` draw
the cached view with no `downSample` recomputation; any other event makes
it trigger a recomputation. -/
theorem xZoom_threshold_gate (s : VisState) (e : ZoomEvent) (v : DownsampledView)
    (hc : s.cache = some v) :
    ((|s.currentZoomFactor - e.factor| < s.triggerUpdateZoomDelta ∧
      |s.currentDragDeltaX - e.delta.x| < s.triggerUpdateDragDelta) →
      xZoom s e = (s, Effect.rendered v)) ∧
    (¬(|s.currentZoomFactor - e.factor| < s.triggerUpdateZoomDelta ∧
       |s.currentDragDeltaX - e.delta.x| < s.triggerUpdateDragDelta) →
      ((xZoom s e).2).isRecompute = true) := by
  constructor
  · intro h
    exact xZoom_reuse_eq s e v hc h.1 h.2
  · intro h
    simp only [xZoom]
    rw [if_neg h]
    exact downSample_isRecompute _

/-- Witness for C2 with the spec's numbers: thresholds `{zoom: 0.05,
drag: 4}`; the event with `deltaZoom = 0.02, deltaDrag = 1` reuses the
cache, the event with `deltaZoom = 0.2` recomputes. -/
theorem xZoom_threshold_gate_witness :
    xZoom cachedState smallDeltaEvent = (cachedState, Effect.rendered cachedView) ∧
    ((xZoom cachedState bigZoomEvent).2).isRecompute = true := by
  constructor
  · exact (xZoom_threshold_gate cachedState smallDeltaEvent cachedView rfl).1
      (by norm_num [cachedState, baseState, smallDeltaEvent, abs_lt])
  · exact (xZoom_threshold_gate cachedState bigZoomEvent cachedView rfl).2
      (by norm_num [cachedState, baseState, bigZoomEvent, abs_lt])

/-- C5 counterexample: after `setDownSample cachedView` against the visible
range `[0, 10]`, a reuse decision taken once the visible range moved to
`[5, 15]` returns the same view contents, but `xxScale` still maps onto
`[0, 10]` — the reuse branch does not rescale the IndexScale against the
new visible time range. -/
theorem xZoom_reuse_rescale_counterexample :
    (xZoom pannedState reuseEvent).2 = Effect.rendered cachedView ∧
    (xZoom pannedState reuseEvent).1.xxScaleRange = (0, 10) ∧
    (xZoom pannedState reuseEvent).1.xxScaleRange ≠ (5, 15) := by
  have hx : xZoom pannedState reuseEvent = (pannedState, Effect.rendered cachedView) :=
    xZoom_reuse_eq pannedState reuseEvent cachedView rfl
      (by norm_num [pannedState, storedState, setDownSample, baseState, reuseEvent])
      (by norm_num [pannedState, storedState, setDownSample, baseState, reuseEvent])
  rw [hx]
  refine ⟨rfl, rfl, ?_⟩
  norm_num [pannedState, storedState, setDownSample, baseState]

/-- C5 as amended: a reuse decision returns the same cached view contents
and leaves the IndexScale (and all other state) unchanged — it keeps the
mapping of `[0, view.length]` onto the visible range that was current at
the last `setDownSample`, and does not rescale it to the new visible
range. -/
theorem xZoom_reuse_preserves_scale (s : VisState) (e : ZoomEvent)
    (v : DownsampledView) (hc : s.cache = some v)
    (hz : |s.currentZoomFactor - e.factor| < s.triggerUpdateZoomDelta)
    (hd : |s.currentDragDeltaX - e.delta.x| < s.triggerUpdateDragDelta) :
    (xZoom s e).2 = Effect.rendered v ∧
    (xZoom s e).1.xxScaleDomain = s.xxScaleDomain ∧
    (xZoom s e).1.xxScaleRange = s.xxScaleRange := by
  rw [xZoom_reuse_eq s e v hc hz hd]
  exact ⟨rfl, rfl, rfl⟩

/-- Witness for the amended C5 at the `[0, 10]` → `[5, 15]` fixture: the
reuse decision renders the stored view while `xxScale` keeps the range it
was given when the view was stored. -/
theorem xZoom_reuse_preserves_scale_witness :
    (xZoom pannedState reuseEvent).2 = Effect.rendered cachedView ∧
    (xZoom pannedState reuseEvent).1.xxScaleDomain = pannedState.xxScaleDomain ∧
    (xZoom pannedState reuseEvent).1.xxScaleRange = pannedState.xxScaleRange :=
  xZoom_reuse_preserves_scale pannedState reuseEvent cachedView rfl
    (by norm_num [pannedState, storedState, setDownSample, baseState, reuseEvent])
    (by norm_num [pannedState, storedState, setDownSample, baseState, reuseEvent])

/-- C9: a worker response whose command is not `downSample` makes
`resamplerResponse` throw a protocol error rather than being silently
ignored; a `downSample` response throws nothing and its view is applied to
the cache. -/
theorem resamplerResponse_protocol (s : VisState) (r : Response) :
    (r.cmd ≠ "downSample" →
      resamplerResponse s r = .error "Resampler unkown command: undefined") ∧
    (r.cmd = "downSample" →
      resamplerResponse s r = .ok (setDownSample s r.downSampledView) ∧
      (setDownSample s r.downSampledView).cache = some r.downSampledView) := by
  constructor
  · intro h
    simp [resamplerResponse, h]
  · intro h
    exact ⟨by simp [resamplerResponse, h], rfl⟩

/-- Witness for C9 at concrete responses: a `bogus` command errors, a
`downSample` command applies its view. -/
theorem resamplerResponse_protocol_witness :
    resamplerResponse baseState ⟨"bogus", 0, []⟩
        = .error "Resampler unkown command: undefined" ∧
    resamplerResponse baseState (respOf 7)
        = .ok (setDownSample baseState (viewOf 7)) :=
  ⟨(resamplerResponse_protocol baseState ⟨"bogus", 0, []⟩).1 (by decide),
    ((resamplerResponse_protocol baseState (respOf 7)).2 rfl).1⟩

/-- C1 (evaluating the source at the failing input): the staleness check of
`resamplerResponse` is commented out, so feeding responses with request
identifiers `[3, 1, 5, 2, 4]` applies every one of them in arrival order —
the stale response `1` overwrites the already-applied `3`, the final
applied view is the one of identifier `4` (not `5`), and the
`__currentWorkerCallTime` watermark never advances from `0`. -/
theorem resamplerResponse_applies_stale_responses :
    (processResponses baseState ([3, 1, 5, 2, 4].map respOf)).map VisState.cache
        = .ok (some (viewOf 4)) ∧
    (processResponses baseState ([3, 1].map respOf)).map VisState.cache
        = .ok (some (viewOf 1)) ∧
    (processResponses baseState
          ([3, 1, 5, 2, 4].map respOf)).map VisState.currentWorkerCallTime
        = .ok 0 ∧
    viewOf 4 ≠ viewOf 5 := by
  refine ⟨rfl, rfl, rfl, ?_⟩
  simp [viewOf]

/-- C8 (evaluating the source at the failing input): `downSample` takes its
default value from `this.yScale.domain()` — the line its own comment flags
with `// not this` — so when that scale's domain is `[0, 100]` while the
layer's own `yDomain` parameter is `[-1, 1]`, the recomputation uses `50`,
not the midpoint `0` of the layer's own vertical value domain. -/
theorem downSample_defaultValue_wrong_scale :
    (downSamplePlan mismatchedState).defaultValue = 50 ∧
    (mismatchedState.paramYDomain.1 + mismatchedState.paramYDomain.2) / 2 = 0 ∧
    (downSamplePlan mismatchedState).defaultValue
        ≠ (mismatchedState.paramYDomain.1 + mismatchedState.paramYDomain.2) / 2 := by
  refine ⟨by norm_num [downSamplePlan, mismatchedState, baseState],
    by norm_num [mismatchedState, baseState],
    by norm_num [downSamplePlan, mismatchedState, baseState]⟩

end WaveformVis
